import Mathlib

/-!
Verification of the CubeMot configuration tooling (tools/gen_multiconfig.py and
tools/gen_config.py) against its natural-language specification.

The Python sources are shallowly embedded: kconfiglib symbol objects become the
`Symbol` structure (carrying exactly the fields the two scripts read), the
filesystem becomes an explicit `FsState` threaded through the writers, and each
Python function is translated into a Lean definition of the same name (leading
underscores dropped).  kconfiglib itself is an external dependency; the only
piece of it that a claim depends on behaviourally, `_write_if_changed`, is
modelled from the spec's contract and marked as such.
-/

namespace CubeMot

/-- Symbol types, mirroring kconfiglib's BOOL / TRISTATE / STRING / INT / HEX
type constants. -/
inductive SymType where
  | sbool
  | stristate
  | sstring
  | sint
  | shex
deriving DecidableEq, Repr

/-- One entry of a menu node's parent chain, as inspected by gen_config.py's
menu-path walk: whether the ancestor is a menuconfig node and its prompt text
(None when the node has no prompt; the walk substitutes "Other"). -/
structure MenuAncestor where
  is_menuconfig : Bool
  promptText : Option String
deriving DecidableEq, Repr

/-- A declaring location of a symbol (one element of sym.nodes): the Kconfig
file that declares it, its optional help text, and its parent chain listed
innermost-first (node.parent, node.parent.parent, ...). -/
structure Node where
  filename : String
  help : Option String
  ancestors : List MenuAncestor
deriving DecidableEq, Repr

/-- A kconfiglib symbol, restricted to the fields the two scripts read.
orig_type is sym.orig_type (used by gen_multiconfig.py); type is sym.type
(used by gen_config.py); str_value and tri_value are the resolved values;
write_to_conf is sym._write_to_conf. -/
structure Symbol where
  name : String
  orig_type : SymType
  type : SymType
  str_value : String
  tri_value : Nat
  write_to_conf : Bool
  nodes : List Node
deriving DecidableEq, Repr

/-- The kconfiglib session state the scripts consume: the symbol dictionary
kconf.syms, the declaration-ordered kconf.unique_defined_syms, and
kconf.config_prefix (named config_pref here). -/
structure Kconf where
  config_pref : String
  syms : List (String × Symbol)
  unique_defined_syms : List Symbol
deriving DecidableEq, Repr

/-- Dictionary lookup kconf.syms[name] (None when absent). -/
def syms_get (k : Kconf) (n : String) : Option Symbol :=
  (k.syms.find? (fun p => p.1 == n)).map (fun p => p.2)

/-- Python str.startswith as a character-list prefix test. -/
def starts_with (s pre : String) : Bool :=
  pre.toList.isPrefixOf s.toList

/-- Python str.endswith as a character-list suffix test. -/
def ends_with (s suf : String) : Bool :=
  suf.toList.isSuffixOf s.toList

/-- kconfiglib.escape, expanded per character.  The library computes
val.replace(backslash, double backslash) followed by replacing each double
quote with backslash-quote; since the first pass touches only the original
backslashes and the second only the original quotes, the composition equals
this single character-wise expansion. -/
def escape_char (c : Char) : String :=
  if c = '\\' then "\\\\"
  else if c = '"' then "\\\""
  else String.singleton c

/-- kconfiglib.escape applied to a whole value. -/
def escape (s : String) : String :=
  String.join (s.toList.map escape_char)

/-- The chunks _generate_header_content (gen_multiconfig.py) appends for one
symbol: nothing when the symbol is not written to the configuration; for
bool/tristate a single define for value y, a _MODULE define for value m and
nothing otherwise; a quoted escaped define for strings; and a define with
0x-normalisation for hex (plain literal for int). -/
def sym_chunks (pref : String) (sym : Symbol) : List String :=
  if !sym.write_to_conf then []
  else if sym.orig_type = SymType.sbool ∨ sym.orig_type = SymType.stristate then
    if sym.str_value = "y" then
      ["#define " ++ pref ++ sym.name ++ " 1\n"]
    else if sym.str_value = "m" then
      ["#define " ++ pref ++ sym.name ++ "_MODULE 1\n"]
    else []
  else if sym.orig_type = SymType.sstring then
    ["#define " ++ pref ++ sym.name ++ " \"" ++ escape sym.str_value ++ "\"\n"]
  else
    let v :=
      if sym.orig_type = SymType.shex ∧
          ¬ (starts_with sym.str_value "0x" ∨ starts_with sym.str_value "0X") then
        "0x" ++ sym.str_value
      else sym.str_value
    ["#define " ++ pref ++ sym.name ++ " " ++ v ++ "\n"]

/-- _generate_header_content (gen_multiconfig.py): the optional
KCONFIG_AUTOHEADER_HEADER preamble (a newline is appended when it is
non-empty), followed by each symbol's chunks in list order. -/
def generate_header_content (env pref : String) (symbols : List Symbol) : String :=
  let header := if env ≠ "" then env ++ "\n" else env
  header ++ String.join (symbols.map (fun s => String.join (sym_chunks pref s)))

/-- Append a value under a key in an insertion-ordered association of lists,
modelling a Python dict of lists (keys keep first-encounter order, values keep
append order). -/
def insert_grouped {α : Type} (key : String) (v : α) :
    List (String × List α) → List (String × List α)
  | [] => [(key, [v])]
  | (k, vs) :: rest =>
    if k = key then (k, vs ++ [v]) :: rest
    else (k, vs) :: insert_grouped key v rest

/-- _build_file_to_symbols_map (gen_multiconfig.py): over unique_defined_syms,
skip symbols not written to the configuration, and append each remaining
symbol to the bucket of every file in which it has a declaring node. -/
def build_file_to_symbols_map (k : Kconf) : List (String × List Symbol) :=
  k.unique_defined_syms.foldl
    (fun acc sym =>
      if !sym.write_to_conf then acc
      else sym.nodes.foldl (fun a node => insert_grouped node.filename sym a) acc)
    []

/-- Characters of posixpath.dirname: keep everything up to and including the
last slash, then strip trailing slashes unless the head is all slashes. -/
def rstrip_slashes (cs : List Char) : List Char :=
  (cs.reverse.dropWhile (fun c => c = '/')).reverse

/-- Head computation of posixpath.dirname on a character list. -/
def dirname_chars (cs : List Char) : List Char :=
  let head := (cs.reverse.dropWhile (fun c => c ≠ '/')).reverse
  if head ≠ [] ∧ head.any (fun c => c ≠ '/') then rstrip_slashes head else head

/-- os.path.dirname for POSIX paths. -/
def dirname (p : String) : String :=
  String.mk (dirname_chars p.toList)

/-- One step of posixpath.join: an absolute component restarts the path,
otherwise a separator is inserted unless one is already present. -/
def join_one (path b : String) : String :=
  if starts_with b "/" then b
  else if path = "" ∨ ends_with path "/" then path ++ b
  else path ++ "/" ++ b

/-- os.path.join with two components. -/
def path_join (a b : String) : String := join_one a b

/-- os.path.join with three components. -/
def path_join3 (a b c : String) : String := join_one (join_one a b) c

/-- _get_header_path (gen_multiconfig.py): a root-level Kconfig file maps to
output_dir/config.h, a file in a subdirectory maps to
output_dir/its-directory/config.h. -/
def get_header_path (kconfig_path out_dir : String) : String :=
  let kconfig_dir := dirname kconfig_path
  if kconfig_dir = "" then path_join out_dir "config.h"
  else path_join3 out_dir kconfig_dir "config.h"

/-- The filesystem slice the writers touch: file contents by path, the
directories requested from os.makedirs, and the log of paths actually written
(in order), which records whether a physical write occurred. -/
structure FsState where
  files : String → Option String
  dirs : List String
  writes : List String

/-- An unconditional file write: open(path, w).write(content). -/
def fs_write (st : FsState) (p c : String) : FsState :=
  { st with
    files := fun q => if q = p then some c else st.files q,
    writes := st.writes ++ [p] }

/-- os.makedirs(d, exist_ok=True): record that d (and hence its parents)
exists. -/
def makedirs (st : FsState) (d : String) : FsState :=
  { st with dirs := st.dirs ++ [d] }

/-- Modelled from the spec: kconfiglib's _write_if_changed, the external
library helper called by _write_header_file, is not part of this repository;
per section 4.4 it writes only if the new content differs from the existing
file's content (exact comparison) and returns whether a write occurred. -/
def write_if_changed (st : FsState) (p c : String) : FsState × Bool :=
  if st.files p = some c then (st, false) else (fs_write st p c, true)

/-- _write_header_file (gen_multiconfig.py): create the parent directory when
the path has one, then delegate to write_if_changed; the returned flag is what
the script reports as Generated versus Unchanged. -/
def write_header_file (st : FsState) (header_path content : String) : FsState × Bool :=
  let odir := dirname header_path
  let st1 := if odir ≠ "" then makedirs st odir else st
  write_if_changed st1 header_path content

/-- The header-generation loop of main (gen_multiconfig.py): over the file
buckets in order, skip empty buckets, otherwise write the rendered header to
the bucket's header path and record that path. -/
def header_fold (env pref out : String) (groups : List (String × List Symbol))
    (st : FsState) : FsState × List String :=
  groups.foldl
    (fun acc g =>
      if g.2 = [] then acc
      else
        let hp := get_header_path g.1 out
        let r := write_header_file acc.1 hp (generate_header_content env pref g.2)
        (r.1, acc.2 ++ [hp]))
    (st, [])

/-- The all-fragments run of header generation in main (gen_multiconfig.py). -/
def generate_headers (env : String) (st : FsState) (k : Kconf) (out : String) :
    FsState × List String :=
  header_fold env k.config_pref out (build_file_to_symbols_map k) st

/-- The check-symbols collection of main (gen_multiconfig.py): over the same
non-empty file buckets the generation loop visits, every symbol whose
str_value is y or m contributes name=value, in bucket order. -/
def collect_enabled (k : Kconf) : List String :=
  (((build_file_to_symbols_map k).filter (fun g => g.2 ≠ [])).map
    (fun g =>
      (g.2.filter (fun s => s.str_value = "y" ∨ s.str_value = "m")).map
        (fun s => s.name ++ "=" ++ s.str_value))).flatten

/-- The symbol-query branch of main (gen_multiconfig.py): error when the name
is not in kconf.syms, otherwise the symbol's str_value. -/
def query_symbol (k : Kconf) (name : String) : Except String String :=
  match syms_get k name with
  | none => Except.error ("Symbol " ++ name ++ " not found")
  | some sym => Except.ok sym.str_value

/-- The dispatch of main (gen_multiconfig.py) after loading: a truthy
(non-empty) symbol argument takes the query branch and returns before any
header generation; otherwise all headers are generated.  The pair returned is
the final filesystem and either the query error or the printed output. -/
def main_run (env : String) (st : FsState) (k : Kconf) (symbol_arg : Option String)
    (out : String) : FsState × Except String (List String) :=
  match symbol_arg with
  | some s =>
    if s ≠ "" then
      match query_symbol k s with
      | Except.error e => (st, Except.error e)
      | Except.ok v => (st, Except.ok [v])
    else
      let r := generate_headers env st k out
      (r.1, Except.ok r.2)
  | none =>
    let r := generate_headers env st k out
    (r.1, Except.ok r.2)

/-- get_value_for_header (gen_config.py): bool renders 1 when tri_value is 2
and 0 otherwise; tristate renders 1 for 2, 0 for 1 and 0 otherwise; every
other type (string, int, hex, and the fallback branch) renders str_value. -/
def get_value_for_header (sym : Symbol) : String :=
  if sym.type = SymType.sbool then
    (if sym.tri_value = 2 then "1" else "0")
  else if sym.type = SymType.stristate then
    (if sym.tri_value = 2 then "1" else if sym.tri_value = 1 then "0" else "0")
  else
    sym.str_value

/-- get_symbol_location_type (gen_config.py): classification looks only at
sym.nodes[0].filename; the root Kconfig maps to system_config, the boards/,
drivers/ and application/ trees map to their artifacts, anything else (and a
node-less symbol) is excluded. -/
def get_symbol_location_type (sym : Symbol) : Option String :=
  match sym.nodes.head? with
  | none => none
  | some node =>
    if node.filename = "Kconfig" then some "system_config"
    else if starts_with node.filename "boards/" then some "board_config"
    else if starts_with node.filename "drivers/" then some "driver_config"
    else if starts_with node.filename "application/" then some "app_config"
    else none

/-- group_symbols_by_location (gen_config.py): a defaultdict(list) filled in
unique_defined_syms order from each symbol's (single) location type. -/
def group_symbols_by_location (k : Kconf) : List (String × List Symbol) :=
  k.unique_defined_syms.foldl
    (fun acc sym =>
      match get_symbol_location_type sym with
      | some t => insert_grouped t sym acc
      | none => acc)
    []

/-- The menu-path walk in generate_header_file (gen_config.py): the prompts of
the menuconfig ancestors, outermost first (the walk visits parents
innermost-first and inserts each prompt at the front). -/
def menu_path (anc : List MenuAncestor) : List String :=
  (((anc.filter (fun a => a.is_menuconfig)).map
    (fun a => a.promptText.getD "Other"))).reverse

/-- The menu grouping key in generate_header_file (gen_config.py): the
slash-joined menu path of the first declaring node, or Other when the path is
empty.  A node-less symbol never reaches this code (classification requires a
node); the none branch mirrors the Other fallback. -/
def menu_key (sym : Symbol) : String :=
  match sym.nodes.head? with
  | some node =>
    let path := menu_path node.ancestors
    if path = [] then "Other" else String.intercalate "/" path
  | none => "Other"

/-- The help-comment block in generate_header_file (gen_config.py): one
comment line per non-blank line of the help text. -/
def help_comment_lines (h : String) : String :=
  String.join ((h.splitOn "\n").map
    (fun line => if line.trim = "" then "" else "/* " ++ line.trim ++ " */\n"))

/-- The help emission guard in generate_header_file (gen_config.py):
sym.nodes truthy and sym.nodes[0].help truthy (neither None nor empty). -/
def symbol_help_text (sym : Symbol) : String :=
  match sym.nodes.head? with
  | some node =>
    match node.help with
    | some h => if h = "" then "" else help_comment_lines h
    | none => ""
  | none => ""

/-- The macro line generate_header_file (gen_config.py) writes for one
symbol: strings are quoted with a single space and no escaping, every other
type gets two spaces and the raw value (no prefix in either case). -/
def gc_macro_line (sym : Symbol) : String :=
  let value := get_value_for_header sym
  if sym.type = SymType.sstring then
    "#define " ++ sym.name ++ " \"" ++ value ++ "\"\n"
  else
    "#define " ++ sym.name ++ "  " ++ value ++ "\n"

/-- Everything generate_header_file (gen_config.py) writes for one symbol:
help comments, the macro line, and the blank line after it. -/
def gc_symbol_text (sym : Symbol) : String :=
  symbol_help_text sym ++ gc_macro_line sym ++ "\n"

/-- Everything generate_header_file (gen_config.py) writes for one menu
group: the menu comment (for groups other than Other), the member texts, and
the blank line closing the group. -/
def gc_group_text (pair : String × List Symbol) : String :=
  (if pair.1 ≠ "Other" then "/* " ++ pair.1 ++ " */\n" else "")
  ++ String.join (pair.2.map gc_symbol_text) ++ "\n"

/-- One term of the LED count in generate_header_file (gen_config.py):
kconf.syms.get(name) truthy and its tri_value equal to 2. -/
def led_contrib (k : Kconf) (n : String) : Nat :=
  match syms_get k n with
  | some s => if s.tri_value = 2 then 1 else 0
  | none => 0

/-- The LED count computed in generate_header_file (gen_config.py) over
exactly BOARD_HAS_LED1, BOARD_HAS_LED2 and BOARD_HAS_LED3. -/
def led_count (k : Kconf) : Nat :=
  led_contrib k "BOARD_HAS_LED1" + led_contrib k "BOARD_HAS_LED2"
    + led_contrib k "BOARD_HAS_LED3"

/-- The board-only post-pass of generate_header_file (gen_config.py): for the
board_config artifact a BOARD_LED_COUNT define is appended, for every other
artifact nothing is. -/
def led_appendix (config_type : String) (k : Kconf) : String :=
  if config_type = "board_config" then
    "\n#define BOARD_LED_COUNT " ++ toString (led_count k) ++ "\n"
  else ""

/-- One entry of OUTPUT_FILE_MAPPING (gen_config.py). -/
structure OutputInfo where
  file : String
  guard : String
  comment : String
deriving DecidableEq, Repr

/-- OUTPUT_FILE_MAPPING (gen_config.py) as a lookup. -/
def output_file_mapping (t : String) : Option OutputInfo :=
  if t = "system_config" then
    some ⟨"boards/system_config.h", "SYSTEM_CONFIG_H", "System Configuration"⟩
  else if t = "board_config" then
    some ⟨"boards/board_config.h", "BOARD_CONFIG_H", "Board Configuration"⟩
  else if t = "driver_config" then
    some ⟨"drivers/driver_config.h", "DRIVER_CONFIG_H", "Driver Configuration"⟩
  else if t = "app_config" then
    some ⟨"application/app_config.h", "APP_CONFIG_H", "Application Configuration"⟩
  else none

/-- The full text generate_header_file (gen_config.py) writes: banner,
include guard, title comment, the menu groups in first-encounter order, the
board-only LED post-pass, and the guard close. -/
def generate_header_file_content (k : Kconf) (symbols : List Symbol)
    (info : OutputInfo) (config_type : String) : String :=
  "/* Auto-generated by gen_config.py for " ++ info.comment ++ " - DO NOT EDIT */\n\n"
  ++ "#ifndef " ++ info.guard ++ "\n"
  ++ "#define " ++ info.guard ++ "\n\n"
  ++ "/* " ++ info.comment ++ " */\n\n"
  ++ String.join
      ((symbols.foldl (fun acc s => insert_grouped (menu_key s) s acc) []).map gc_group_text)
  ++ led_appendix config_type k
  ++ "#endif /* " ++ info.guard ++ " */\n"

/-- generate_header_file (gen_config.py) as a filesystem action: nothing for
an empty symbol list, otherwise create the parent directory and
unconditionally rewrite the target file (the source opens the file with mode
w with no content comparison).  The unknown-config-type branch, a KeyError in
the source, is modelled as none. -/
def generate_header_file (st : FsState) (k : Kconf) (symbols : List Symbol)
    (config_type out_dir : String) : FsState × Option String :=
  if symbols = [] then (st, none)
  else
    match output_file_mapping config_type with
    | none => (st, none)
    | some info =>
      let output_file := path_join out_dir info.file
      let st1 := makedirs st (dirname output_file)
      let content := generate_header_file_content k symbols info config_type
      (fs_write st1 output_file content, some output_file)

/-- Membership of a value in the bucket of a given key of an
insertion-ordered association (the shape produced by insert_grouped). -/
def in_bucket {α : Type} (acc : List (String × List α)) (f : String) (w : α) : Prop :=
  ∃ g ∈ acc, g.1 = f ∧ w ∈ g.2

/-- The projection of a symbol to the fields _generate_header_content
(gen_multiconfig.py) reads: name, orig_type, str_value and the
write-to-configuration flag. -/
def proj_mc (s : Symbol) : String × SymType × String × Bool :=
  (s.name, s.orig_type, s.str_value, s.write_to_conf)

/-- The projection of a symbol to the data generate_header_file
(gen_config.py) reads when rendering: name, type, tri_value, str_value, the
menu grouping key and the rendered help block. -/
def proj_gc (s : Symbol) : String × SymType × Nat × String × String × String :=
  (s.name, s.type, s.tri_value, s.str_value, menu_key s, symbol_help_text s)

/-- Group structure of a menu grouping up to the gen_config.py rendering
projection of its members. -/
def groups_proj (g : List (String × List Symbol)) :
    List (String × List (String × SymType × Nat × String × String × String)) :=
  g.map (fun p => (p.1, p.2.map proj_gc))

/-- A root-level bool symbol resolved off (n, tri_value 0). -/
def symC1 : Symbol := ⟨"FOO", .sbool, .sbool, "n", 0, true, [⟨"Kconfig", none, []⟩]⟩

/-- A root-level bool symbol resolved on (y, tri_value 2). -/
def symC1y : Symbol := ⟨"BAR", .sbool, .sbool, "y", 2, true, [⟨"Kconfig", none, []⟩]⟩

/-- A bool symbol declared both under boards/ and under drivers/. -/
def symC2 : Symbol :=
  ⟨"X", .sbool, .sbool, "y", 2, true,
    [⟨"boards/x/Kconfig", none, []⟩, ⟨"drivers/y/Kconfig", none, []⟩]⟩

/-- A session containing only the doubly-declared symbol symC2. -/
def kC2 : Kconf := ⟨"CONFIG_", [("X", symC2)], [symC2]⟩

/-- A board-declared bool symbol resolved on. -/
def symC3 : Symbol := ⟨"BRD", .sbool, .sbool, "y", 2, true, [⟨"boards/x/Kconfig", none, []⟩]⟩

/-- A session containing only symC3. -/
def kC3 : Kconf := ⟨"CONFIG_", [("BRD", symC3)], [symC3]⟩

/-- The board_config entry of OUTPUT_FILE_MAPPING, spelled out. -/
def infoBoard : OutputInfo := ⟨"boards/board_config.h", "BOARD_CONFIG_H", "Board Configuration"⟩

/-- The header text gen_config.py renders for kC3's board artifact. -/
def contentC3 : String := generate_header_file_content kC3 [symC3] infoBoard "board_config"

/-- A filesystem on which the board header already holds exactly the content
about to be generated. -/
def stC3 : FsState :=
  ⟨fun q => if q = "out/boards/board_config.h" then some contentC3 else none, [], []⟩

/-- An empty filesystem. -/
def stEmpty : FsState := ⟨fun _ => none, [], []⟩

/-- A root-level hex symbol whose resolved literal lacks a 0x prefix. -/
def symC4 : Symbol := ⟨"H", .shex, .shex, "2a", 0, true, [⟨"Kconfig", none, []⟩]⟩

/-- A second hex symbol without 0x, for the witness. -/
def symC4b : Symbol := ⟨"HX", .shex, .shex, "1F", 0, true, [⟨"Kconfig", none, []⟩]⟩

/-- A string symbol whose resolved value contains a double quote. -/
def symC5 : Symbol := ⟨"S", .sstring, .sstring, "a\"b", 0, true, [⟨"Kconfig", none, []⟩]⟩

/-- Two copies of one symbol differing only in the declaring file path. -/
def symC6a : Symbol := ⟨"W", .sbool, .sbool, "y", 2, true, [⟨"boards/a/Kconfig", none, []⟩]⟩

/-- The path-renamed twin of symC6a. -/
def symC6b : Symbol := ⟨"W", .sbool, .sbool, "y", 2, true, [⟨"drivers/b/Kconfig", none, []⟩]⟩

/-- A root-level bool symbol A, declared before symC7s. -/
def symC7a : Symbol := ⟨"A", .sbool, .sbool, "y", 2, true, [⟨"Kconfig", none, []⟩]⟩

/-- A STRING symbol whose resolved value happens to be the text y. -/
def symC7s : Symbol := ⟨"S", .sstring, .sstring, "y", 0, true, [⟨"drivers/x/Kconfig", none, []⟩]⟩

/-- A root-level bool symbol B, declared after symC7s. -/
def symC7b : Symbol := ⟨"B", .sbool, .sbool, "y", 2, true, [⟨"Kconfig", none, []⟩]⟩

/-- A session whose declaration order interleaves files: A (root), S
(drivers), B (root). -/
def kC7 : Kconf :=
  ⟨"CONFIG_", [("A", symC7a), ("S", symC7s), ("B", symC7b)], [symC7a, symC7s, symC7b]⟩

/-- A session that knows only the symbol FOO. -/
def kC8 : Kconf := ⟨"CONFIG_", [("FOO", symC7a)], [symC7a]⟩

/-- BOARD_HAS_LED1 resolved on. -/
def led1 : Symbol :=
  ⟨"BOARD_HAS_LED1", .sbool, .sbool, "y", 2, true, [⟨"boards/x/Kconfig", none, []⟩]⟩

/-- BOARD_HAS_LED2 resolved on. -/
def led2 : Symbol :=
  ⟨"BOARD_HAS_LED2", .sbool, .sbool, "y", 2, true, [⟨"boards/x/Kconfig", none, []⟩]⟩

/-- BOARD_HAS_LED3 resolved off. -/
def led3 : Symbol :=
  ⟨"BOARD_HAS_LED3", .sbool, .sbool, "n", 0, true, [⟨"boards/x/Kconfig", none, []⟩]⟩

/-- The board session of the LED-count scenario. -/
def kC9 : Kconf :=
  ⟨"CONFIG_",
    [("BOARD_HAS_LED1", led1), ("BOARD_HAS_LED2", led2), ("BOARD_HAS_LED3", led3)],
    [led1, led2, led3]⟩

/-- A foldl preserves any invariant its step function preserves. -/
theorem foldl_inv {α β : Type} {P : β → Prop} (f : β → α → β)
    (hf : ∀ b a, P b → P (f b a)) :
    ∀ (l : List α) (b : β), P b → P (l.foldl f b) := by
  intro l
  induction l with
  | nil => intro b hb; simpa using hb
  | cons a t ih => intro b hb; simpa using ih (f b a) (hf b a hb)

/-- insert_grouped leaves the inserted value in the bucket of its key. -/
theorem insert_grouped_self {α : Type} (key : String) (v : α) :
    ∀ acc : List (String × List α), in_bucket (insert_grouped key v acc) key v := by
  intro acc
  induction acc with
  | nil => exact ⟨(key, [v]), by simp [insert_grouped], rfl, by simp⟩
  | cons p rest ih =>
    obtain ⟨k, vs⟩ := p
    by_cases h : k = key
    · exact ⟨(k, vs ++ [v]), by simp [insert_grouped, h], h, by simp⟩
    · obtain ⟨g, hg, hk, hv⟩ := ih
      refine ⟨g, ?_, hk, hv⟩
      simp only [insert_grouped, if_neg h, List.mem_cons]
      exact Or.inr hg

/-- insert_grouped never removes a value from a bucket. -/
theorem insert_grouped_mono {α : Type} (key : String) (v : α) {f : String} {w : α} :
    ∀ {acc : List (String × List α)}, in_bucket acc f w →
      in_bucket (insert_grouped key v acc) f w := by
  intro acc
  induction acc with
  | nil => intro h; obtain ⟨g, hg, _, _⟩ := h; simp at hg
  | cons p rest ih =>
    obtain ⟨k, vs⟩ := p
    intro h
    obtain ⟨g, hg, hk, hw⟩ := h
    rcases List.mem_cons.mp hg with hgp | hgr
    · subst hgp
      by_cases hkey : k = key
      · refine ⟨(k, vs ++ [v]), by simp [insert_grouped, hkey], hk, ?_⟩
        exact List.mem_append_left _ hw
      · exact ⟨(k, vs), by simp [insert_grouped, hkey], hk, hw⟩
    · by_cases hkey : k = key
      · refine ⟨g, ?_, hk, hw⟩
        simp only [insert_grouped, if_pos hkey, List.mem_cons]
        exact Or.inr hgr
      · obtain ⟨g', hg', hk', hw'⟩ := ih ⟨g, hgr, hk, hw⟩
        refine ⟨g', ?_, hk', hw'⟩
        simp only [insert_grouped, if_neg hkey, List.mem_cons]
        exact Or.inr hg'

/-- insert_grouped preserves a per-bucket soundness predicate when the
inserted value satisfies it for its key. -/
theorem insert_grouped_sound {α : Type} (R : α → String → Prop) (key : String) (v : α)
    (hv : R v key) :
    ∀ {acc : List (String × List α)},
      (∀ g ∈ acc, ∀ m ∈ g.2, R m g.1) →
      ∀ g ∈ insert_grouped key v acc, ∀ m ∈ g.2, R m g.1 := by
  intro acc
  induction acc with
  | nil =>
    intro _ g hg m hm
    simp only [insert_grouped, List.mem_singleton] at hg
    subst hg
    simp only [List.mem_singleton] at hm
    subst hm
    exact hv
  | cons p rest ih =>
    obtain ⟨k, vs⟩ := p
    intro hacc g hg m hm
    by_cases hkey : k = key
    · simp only [insert_grouped, if_pos hkey, List.mem_cons] at hg
      rcases hg with hg1 | hg2
      · subst hg1
        rcases List.mem_append.mp hm with hm1 | hm2
        · exact hacc (k, vs) (by simp) m hm1
        · simp only [List.mem_singleton] at hm2
          subst hm2
          rw [hkey]
          exact hv
      · exact hacc g (List.mem_cons_of_mem _ hg2) m hm
    · simp only [insert_grouped, if_neg hkey, List.mem_cons] at hg
      rcases hg with hg1 | hg2
      · subst hg1
        exact hacc (k, vs) (by simp) m hm
      · exact ih (fun g' hg' => hacc g' (List.mem_cons_of_mem _ hg')) g hg2 m hm

/-- After folding insert_grouped over a node list, the symbol sits in the
bucket of every listed node's file. -/
theorem node_fold_in_bucket (sym : Symbol) :
    ∀ (nodes : List Node) (acc : List (String × List Symbol)) (n : Node),
      n ∈ nodes →
      in_bucket (nodes.foldl (fun a node => insert_grouped node.filename sym a) acc)
        n.filename sym := by
  intro nodes
  induction nodes with
  | nil => intro acc n hn; simp at hn
  | cons d rest ih =>
    intro acc n hn
    rcases List.mem_cons.mp hn with h | h
    · subst h
      simp only [List.foldl_cons]
      exact foldl_inv (P := fun acc' => in_bucket acc' n.filename sym)
        (fun a node => insert_grouped node.filename sym a)
        (fun b a hb => insert_grouped_mono a.filename sym hb) rest _
        (insert_grouped_self n.filename sym acc)
    · simp only [List.foldl_cons]
      exact ih (insert_grouped d.filename sym acc) n h

/-- The per-symbol step of _build_file_to_symbols_map never removes a value
from a bucket. -/
theorem build_step_mono {f : String} {w : Symbol}
    (b : List (String × List Symbol)) (a : Symbol) (hb : in_bucket b f w) :
    in_bucket
      (if !a.write_to_conf then b
       else a.nodes.foldl (fun acc node => insert_grouped node.filename a acc) b) f w := by
  by_cases hw : !a.write_to_conf
  · simpa [hw] using hb
  · simp only [hw, Bool.false_eq_true, if_false]
    exact foldl_inv (P := fun acc' => in_bucket acc' f w)
      (fun acc node => insert_grouped node.filename a acc)
      (fun b' a' hb' => insert_grouped_mono a'.filename a hb') a.nodes b hb

/-- Every declaring file of every written symbol gets that symbol in its
bucket of the file-to-symbols map. -/
theorem build_file_to_symbols_map_mem (k : Kconf) (s : Symbol) (n : Node)
    (hs : s ∈ k.unique_defined_syms) (hw : s.write_to_conf = true) (hn : n ∈ s.nodes) :
    in_bucket (build_file_to_symbols_map k) n.filename s := by
  obtain ⟨l1, l2, hsplit⟩ := List.append_of_mem hs
  unfold build_file_to_symbols_map
  rw [hsplit, List.foldl_append, List.foldl_cons]
  apply foldl_inv (P := fun acc' => in_bucket acc' n.filename s)
    (fun acc sym =>
      if !sym.write_to_conf then acc
      else sym.nodes.foldl (fun a node => insert_grouped node.filename sym a) acc)
    (fun b a hb => build_step_mono b a hb) l2
  simp only [hw, Bool.not_true, Bool.false_eq_true, if_false]
  exact node_fold_in_bucket s s.nodes _ n hn

/-- Every member of a bucket of group_symbols_by_location has that bucket's
key as its location type: gen_config.py classifies by the first declaring
node only. -/
theorem group_symbols_by_location_sound (k : Kconf) :
    ∀ g ∈ group_symbols_by_location k, ∀ m ∈ g.2,
      get_symbol_location_type m = some g.1 := by
  unfold group_symbols_by_location
  have main : ∀ (l : List Symbol) (acc : List (String × List Symbol)),
      (∀ g ∈ acc, ∀ m ∈ g.2, get_symbol_location_type m = some g.1) →
      ∀ g ∈ l.foldl
          (fun acc' sym =>
            match get_symbol_location_type sym with
            | some t => insert_grouped t sym acc'
            | none => acc') acc,
        ∀ m ∈ g.2, get_symbol_location_type m = some g.1 := by
    intro l
    induction l with
    | nil => intro acc hacc; simpa using hacc
    | cons s rest ih =>
      intro acc hacc
      simp only [List.foldl_cons]
      cases hloc : get_symbol_location_type s with
      | none => exact ih acc (by simpa [hloc] using hacc)
      | some t =>
        have step := insert_grouped_sound
          (R := fun m key => get_symbol_location_type m = some key) t s hloc hacc
        exact fun g hg m hm => by
          have := ih (insert_grouped t s acc) step g ?_ m hm
          · exact this
          · simpa [hloc] using hg
  exact main k.unique_defined_syms [] (by simp)

/-- Mapping a function that factors through a projection is determined by the
projected list. -/
theorem map_congr_of_proj {α π β : Type} (p : α → π) (f : α → β)
    (hf : ∀ a b, p a = p b → f a = f b) :
    ∀ {l1 l2 : List α}, l1.map p = l2.map p → l1.map f = l2.map f := by
  intro l1
  induction l1 with
  | nil =>
    intro l2 h
    cases l2 with
    | nil => rfl
    | cons b t2 => simp at h
  | cons a t ih =>
    intro l2 h
    cases l2 with
    | nil => simp at h
    | cons b t2 =>
      simp only [List.map_cons, List.cons.injEq] at h ⊢
      exact ⟨hf a b h.1, ih h.2⟩

/-- The chunks of one symbol depend only on its proj_mc projection. -/
theorem sym_chunks_congr (pref : String) {s1 s2 : Symbol} (h : proj_mc s1 = proj_mc s2) :
    sym_chunks pref s1 = sym_chunks pref s2 := by
  simp only [proj_mc, Prod.mk.injEq] at h
  obtain ⟨h1, h2, h3, h4⟩ := h
  simp only [sym_chunks, h1, h2, h3, h4]

/-- _generate_header_content (gen_multiconfig.py) is a function of the
preamble, the configuration prefix and the proj_mc projections of the symbol
list: no other state influences its text. -/
theorem generate_header_content_congr (env pref : String) {l1 l2 : List Symbol}
    (h : l1.map proj_mc = l2.map proj_mc) :
    generate_header_content env pref l1 = generate_header_content env pref l2 := by
  unfold generate_header_content
  rw [map_congr_of_proj proj_mc (fun s => String.join (sym_chunks pref s))
    (fun a b hp => by
      show String.join (sym_chunks pref a) = String.join (sym_chunks pref b)
      rw [sym_chunks_congr pref hp]) h]

/-- The text gen_config.py writes for one symbol depends only on its proj_gc
projection. -/
theorem gc_symbol_text_congr {s1 s2 : Symbol} (h : proj_gc s1 = proj_gc s2) :
    gc_symbol_text s1 = gc_symbol_text s2 := by
  simp only [proj_gc, Prod.mk.injEq] at h
  obtain ⟨h1, h2, h3, h4, h5, h6⟩ := h
  simp only [gc_symbol_text, gc_macro_line, get_value_for_header, h1, h2, h3, h4, h6]

/-- The menu grouping key is part of the proj_gc projection. -/
theorem menu_key_congr {s1 s2 : Symbol} (h : proj_gc s1 = proj_gc s2) :
    menu_key s1 = menu_key s2 := by
  simp only [proj_gc, Prod.mk.injEq] at h
  exact h.2.2.2.2.1

/-- Inserting projection-equal symbols into projection-equal groupings yields
projection-equal groupings. -/
theorem insert_grouped_proj_congr {s1 s2 : Symbol} (h : proj_gc s1 = proj_gc s2) :
    ∀ {acc1 acc2 : List (String × List Symbol)}, groups_proj acc1 = groups_proj acc2 →
      groups_proj (insert_grouped (menu_key s1) s1 acc1)
        = groups_proj (insert_grouped (menu_key s2) s2 acc2) := by
  have hk := menu_key_congr h
  intro acc1
  induction acc1 with
  | nil =>
    intro acc2 ha
    cases acc2 with
    | nil => simp [insert_grouped, groups_proj, h, hk]
    | cons q t => simp [groups_proj] at ha
  | cons p t ih =>
    intro acc2 ha
    cases acc2 with
    | nil => simp [groups_proj] at ha
    | cons q t2 =>
      obtain ⟨k1, vs1⟩ := p
      obtain ⟨k2, vs2⟩ := q
      rw [show groups_proj ((k1, vs1) :: t) = (k1, vs1.map proj_gc) :: groups_proj t from rfl,
        show groups_proj ((k2, vs2) :: t2) = (k2, vs2.map proj_gc) :: groups_proj t2 from rfl]
        at ha
      injection ha with hpair ht
      obtain ⟨hks, hvs⟩ := Prod.ext_iff.mp hpair
      simp only at hks hvs
      subst hks
      by_cases hkk : k1 = menu_key s1
      · have e1 : insert_grouped (menu_key s1) s1 ((k1, vs1) :: t)
            = (k1, vs1 ++ [s1]) :: t := by
          simp [insert_grouped, hkk]
        have e2 : insert_grouped (menu_key s2) s2 ((k1, vs2) :: t2)
            = (k1, vs2 ++ [s2]) :: t2 := by
          simp [insert_grouped, hk ▸ hkk]
        rw [e1, e2]
        show (k1, (vs1 ++ [s1]).map proj_gc) :: groups_proj t
          = (k1, (vs2 ++ [s2]).map proj_gc) :: groups_proj t2
        simp only [List.map_append, List.map_cons, List.map_nil, hvs, h, ht]
      · have e1 : insert_grouped (menu_key s1) s1 ((k1, vs1) :: t)
            = (k1, vs1) :: insert_grouped (menu_key s1) s1 t := by
          simp [insert_grouped, hkk]
        have e2 : insert_grouped (menu_key s2) s2 ((k1, vs2) :: t2)
            = (k1, vs2) :: insert_grouped (menu_key s2) s2 t2 := by
          simp [insert_grouped, hk ▸ hkk]
        rw [e1, e2]
        show (k1, vs1.map proj_gc) :: groups_proj (insert_grouped (menu_key s1) s1 t)
          = (k1, vs2.map proj_gc) :: groups_proj (insert_grouped (menu_key s2) s2 t2)
        rw [hvs, ih ht]

/-- The menu-grouping fold of generate_header_file (gen_config.py) maps
projection-equal symbol lists to projection-equal groupings. -/
theorem gc_group_fold_congr :
    ∀ {l1 l2 : List Symbol}, l1.map proj_gc = l2.map proj_gc →
      ∀ {acc1 acc2 : List (String × List Symbol)}, groups_proj acc1 = groups_proj acc2 →
      groups_proj (l1.foldl (fun acc s => insert_grouped (menu_key s) s acc) acc1)
        = groups_proj (l2.foldl (fun acc s => insert_grouped (menu_key s) s acc) acc2) := by
  intro l1
  induction l1 with
  | nil =>
    intro l2 h
    cases l2 with
    | nil => intro acc1 acc2 ha; simpa using ha
    | cons b t2 => simp at h
  | cons a t ih =>
    intro l2 h
    cases l2 with
    | nil => simp at h
    | cons b t2 =>
      simp only [List.map_cons, List.cons.injEq] at h
      intro acc1 acc2 ha
      simp only [List.foldl_cons]
      exact ih h.2 (insert_grouped_proj_congr h.1 ha)

/-- The rendering of one menu group depends only on its key and the
projections of its members. -/
theorem gc_group_text_congr {p q : String × List Symbol}
    (hk : p.1 = q.1) (hm : p.2.map proj_gc = q.2.map proj_gc) :
    gc_group_text p = gc_group_text q := by
  unfold gc_group_text
  rw [hk, map_congr_of_proj proj_gc gc_symbol_text (fun a b hp => gc_symbol_text_congr hp) hm]

/-- Rendering projection-equal groupings yields equal group texts. -/
theorem gc_groups_map_congr :
    ∀ {g1 g2 : List (String × List Symbol)}, groups_proj g1 = groups_proj g2 →
      g1.map gc_group_text = g2.map gc_group_text := by
  intro g1
  induction g1 with
  | nil =>
    intro g2 h
    cases g2 with
    | nil => rfl
    | cons q t2 => simp [groups_proj] at h
  | cons p t ih =>
    intro g2 h
    cases g2 with
    | nil => simp [groups_proj] at h
    | cons q t2 =>
      simp only [groups_proj, List.map_cons, List.cons.injEq, Prod.mk.injEq] at h
      obtain ⟨⟨h1, h2⟩, h3⟩ := h
      simp only [List.map_cons, List.cons.injEq]
      exact ⟨gc_group_text_congr h1 h2, ih h3⟩

/-- The full header text of generate_header_file (gen_config.py) is a
function of the session, artifact info, config type and the proj_gc
projections of the symbol list. -/
theorem generate_header_file_content_congr (k : Kconf) (info : OutputInfo) (ct : String)
    {l1 l2 : List Symbol} (h : l1.map proj_gc = l2.map proj_gc) :
    generate_header_file_content k l1 info ct = generate_header_file_content k l2 info ct := by
  unfold generate_header_file_content
  rw [gc_groups_map_congr (@gc_group_fold_congr l1 l2 h [] [] rfl)]

/-- The modelled write_if_changed always leaves the new content at the target
path. -/
theorem write_if_changed_files_self (st : FsState) (p c : String) :
    (write_if_changed st p c).1.files p = some c := by
  unfold write_if_changed fs_write
  by_cases hc : st.files p = some c <;> simp [hc]

/-- _write_header_file always leaves the new content at the target path. -/
theorem write_header_file_files_self (st : FsState) (p c : String) :
    (write_header_file st p c).1.files p = some c := by
  unfold write_header_file
  exact write_if_changed_files_self _ p c

/-- C1 (amended): gen_multiconfig.py's emitter renders bool/tristate symbols
as the claim states — resolved on gives a define to 1, tristate module gives
a _MODULE define to 1, off gives no line; gen_config.py's emitter, however,
always emits a define whose value is 1 when the symbol is resolved on and 0
when it is resolved off or module (and never a _MODULE macro). -/
theorem bool_tristate_rendering (pref : String) (sym : Symbol)
    (hw : sym.write_to_conf = true)
    (ht : sym.orig_type = SymType.sbool ∨ sym.orig_type = SymType.stristate) :
    (sym.str_value = "y" →
      sym_chunks pref sym = ["#define " ++ pref ++ sym.name ++ " 1\n"])
    ∧ (sym.str_value = "m" →
      sym_chunks pref sym = ["#define " ++ pref ++ sym.name ++ "_MODULE 1\n"])
    ∧ (sym.str_value ≠ "y" → sym.str_value ≠ "m" → sym_chunks pref sym = [])
    ∧ ((sym.type = SymType.sbool ∨ sym.type = SymType.stristate) →
      gc_macro_line sym
        = "#define " ++ sym.name ++ "  "
          ++ (if sym.tri_value = 2 then "1" else "0") ++ "\n") := by
  refine ⟨?_, ?_, ?_, ?_⟩
  · intro hy
    rcases ht with h | h <;> simp [sym_chunks, hw, h, hy]
  · intro hm
    rcases ht with h | h <;> simp [sym_chunks, hw, h, hm]
  · intro hy hm
    rcases ht with h | h <;> simp [sym_chunks, hw, h, hy, hm]
  · intro ht2
    rcases ht2 with h | h
    · simp [gc_macro_line, get_value_for_header, h]
    · simp only [gc_macro_line, get_value_for_header, h]
      by_cases h2 : sym.tri_value = 2
      · simp [h2]
      · by_cases h1 : sym.tri_value = 1 <;> simp [h1, h2]

/-- C1 counterexample: for the off bool symbol FOO, gen_config.py's emitter
writes the macro line defining FOO to 0, while gen_multiconfig.py's emitter
writes nothing — the claim that the header emitter never emits a line
defining the macro to 0 fails on gen_config.py. -/
theorem bool_off_emits_zero_cex :
    gc_symbol_text symC1 = "#define FOO  0\n\n"
    ∧ sym_chunks "CONFIG_" symC1 = [] := by
  exact ⟨by decide, by decide⟩

/-- Witness for C1: the amended rendering evaluated on the concrete on-bool
symbol BAR. -/
theorem bool_tristate_rendering_witness :
    sym_chunks "CONFIG_" symC1y = ["#define " ++ "CONFIG_" ++ symC1y.name ++ " 1\n"] :=
  (bool_tristate_rendering "CONFIG_" symC1y rfl (Or.inl rfl)).1 rfl

/-- C2 (amended): in gen_multiconfig.py a symbol declared in several files is
put into the bucket of every declaring file, so it contributes to each
matching artifact independently; in gen_config.py classification reads only
sym.nodes[0].filename, so a symbol lands only in the group named by its
first declaring location. -/
theorem multi_location_contribution (k : Kconf) (s : Symbol) (n : Node)
    (hs : s ∈ k.unique_defined_syms) (hw : s.write_to_conf = true) (hn : n ∈ s.nodes) :
    in_bucket (build_file_to_symbols_map k) n.filename s
    ∧ (∀ g ∈ group_symbols_by_location k, s ∈ g.2 →
        get_symbol_location_type s = some g.1) :=
  ⟨build_file_to_symbols_map_mem k s n hs hw hn,
   fun g hg hsg => group_symbols_by_location_sound k g hg s hsg⟩

/-- C2 counterexample: symC2 is declared under boards/ and under drivers/,
matching two different classification rules, yet gen_config.py's grouping
contains it only in the board_config artifact of its first declaring
location. -/
theorem first_location_only_cex :
    group_symbols_by_location kC2 = [("board_config", [symC2])] := by
  decide

/-- Witness for C2: the amended contribution statement evaluated on symC2 and
its second declaring node. -/
theorem multi_location_contribution_witness :
    in_bucket (build_file_to_symbols_map kC2) "drivers/y/Kconfig" symC2
    ∧ (∀ g ∈ group_symbols_by_location kC2, symC2 ∈ g.2 →
        get_symbol_location_type symC2 = some g.1) :=
  multi_location_contribution kC2 symC2 ⟨"drivers/y/Kconfig", none, []⟩
    (by decide) rfl (by decide)

/-- C3 (amended): gen_multiconfig.py's artifact writer creates the needed
parent directory, writes only if the new content differs from the existing
content (leaving the file and the write log untouched when they are equal)
and reports whether a write occurred; gen_config.py's header generator, in
contrast, always rewrites its target file. -/
theorem writer_contract (st : FsState) (p c : String) (hd : dirname p ≠ "") :
    ((write_header_file st p c).2 = true ↔ ¬ st.files p = some c)
    ∧ (write_header_file st p c).1.files p = some c
    ∧ (∀ q, q ≠ p → (write_header_file st p c).1.files q = st.files q)
    ∧ (st.files p = some c →
        (write_header_file st p c).1.files = st.files
        ∧ (write_header_file st p c).1.writes = st.writes)
    ∧ dirname p ∈ (write_header_file st p c).1.dirs := by
  by_cases hc : st.files p = some c
  · refine ⟨?_, ?_, ?_, ?_, ?_⟩ <;>
      simp [write_header_file, write_if_changed, makedirs, fs_write, hd, hc]
  · refine ⟨?_, ?_, ?_, ?_, ?_⟩ <;>
      simp_all [write_header_file, write_if_changed, makedirs, fs_write, hd, hc]

/-- C3 counterexample: the target file of gen_config.py's board header
already holds exactly the content about to be rendered, yet running
generate_header_file performs a write (the write log gains the target path)
— the writer does not have write-if-unchanged semantics. -/
theorem rewrite_unchanged_cex :
    stC3.files "out/boards/board_config.h" = some contentC3
    ∧ (generate_header_file stC3 kC3 [symC3] "board_config" "out").1.writes
        = ["out/boards/board_config.h"] :=
  ⟨rfl, rfl⟩

/-- Witness for C3: the amended writer contract evaluated on an empty
filesystem and a concrete nested path, where the first write does occur. -/
theorem writer_contract_witness :
    (write_header_file stEmpty "include/generated/config.h" "x").2 = true :=
  ((writer_contract stEmpty "include/generated/config.h" "x" (by decide)).1).mpr
    (by simp [stEmpty])

/-- C4 (amended): gen_multiconfig.py's emitter renders a hex symbol as a
define of its literal with 0x prepended whenever the literal lacks a 0x or 0X
prefix; gen_config.py's emitter renders the raw resolved literal without any
0x normalisation. -/
theorem hex_rendering (pref : String) (sym : Symbol)
    (hw : sym.write_to_conf = true) (ht : sym.orig_type = SymType.shex) :
    sym_chunks pref sym
      = ["#define " ++ pref ++ sym.name ++ " "
          ++ (if starts_with sym.str_value "0x" ∨ starts_with sym.str_value "0X"
              then sym.str_value else "0x" ++ sym.str_value) ++ "\n"]
    ∧ (sym.type = SymType.shex →
        gc_macro_line sym = "#define " ++ sym.name ++ "  " ++ sym.str_value ++ "\n") := by
  constructor
  · by_cases hs : starts_with sym.str_value "0x" ∨ starts_with sym.str_value "0X"
    · simp [sym_chunks, hw, ht, hs]
    · simp [sym_chunks, hw, ht, hs]
  · intro h2
    simp [gc_macro_line, get_value_for_header, h2]

/-- C4 counterexample: the hex symbol H with resolved literal 2a is emitted
by gen_config.py as the raw literal 2a, not as 0x2a as the claim requires of
every emitted hex macro line. -/
theorem hex_raw_literal_cex :
    gc_macro_line symC4 = "#define H  2a\n"
    ∧ gc_macro_line symC4 ≠ "#define H  0x2a\n" := by
  exact ⟨by decide, by decide⟩

/-- Witness for C4: the amended hex rendering evaluated on the concrete
symbol HX with literal 1F, which gen_multiconfig.py emits as 0x1F. -/
theorem hex_rendering_witness :
    sym_chunks "CONFIG_" symC4b = ["#define CONFIG_HX 0x1F\n"] := by
  rw [(hex_rendering "CONFIG_" symC4b rfl rfl).1]
  decide

/-- C5 (amended): gen_multiconfig.py's emitter renders a string symbol as a
quoted define of the kconfiglib-escaped value (backslashes and double quotes
escaped); gen_config.py's emitter renders the raw resolved value between
quotes with no escaping at all. -/
theorem string_rendering (pref : String) (sym : Symbol)
    (hw : sym.write_to_conf = true) (ht : sym.orig_type = SymType.sstring) :
    sym_chunks pref sym
      = ["#define " ++ pref ++ sym.name ++ " \"" ++ escape sym.str_value ++ "\"\n"]
    ∧ (sym.type = SymType.sstring →
        gc_macro_line sym = "#define " ++ sym.name ++ " \"" ++ sym.str_value ++ "\"\n") := by
  constructor
  · simp [sym_chunks, hw, ht]
  · intro h2
    simp [gc_macro_line, get_value_for_header, h2]

/-- C5 counterexample: the string symbol S resolved to a value containing a
double quote is emitted by gen_config.py with the quote unescaped inside the
literal, differing from the correctly escaped literal the claim requires. -/
theorem string_unescaped_cex :
    gc_macro_line symC5 = "#define S \"a\"b\"\n"
    ∧ escape symC5.str_value = "a\\\"b"
    ∧ gc_macro_line symC5 ≠ "#define S \"" ++ escape symC5.str_value ++ "\"\n" := by
  exact ⟨by decide, by decide, by decide⟩

/-- Witness for C5: the amended string rendering evaluated on the concrete
quote-bearing symbol S, which gen_multiconfig.py emits escaped. -/
theorem string_rendering_witness :
    sym_chunks "" symC5 = ["#define S \"a\\\"b\"\n"] := by
  rw [(string_rendering "" symC5 rfl rfl).1]
  decide

/-- C6: header generation is deterministic — the text of both emitters is a
function of the fixed preamble/prefix/session inputs and of the per-symbol
rendering projections (name, type, resolved value, menu key, help) alone, so
two runs over projection-equal symbol lists produce byte-identical text with
no dependence on declaring paths, timestamps or any other ambient state. -/
theorem header_determinism (env pref : String) (k : Kconf) (info : OutputInfo)
    (ct : String) (s1 s2 t1 t2 : List Symbol)
    (h1 : s1.map proj_mc = s2.map proj_mc)
    (h2 : t1.map proj_gc = t2.map proj_gc) :
    generate_header_content env pref s1 = generate_header_content env pref s2
    ∧ generate_header_file_content k t1 info ct = generate_header_file_content k t2 info ct :=
  ⟨generate_header_content_congr env pref h1,
   generate_header_file_content_congr k info ct h2⟩

/-- Witness for C6: two copies of one symbol that differ only in the
declaring file path have equal projections, and both emitters render them to
identical text. -/
theorem header_determinism_witness :
    generate_header_content "" "CONFIG_" [symC6a] = generate_header_content "" "CONFIG_" [symC6b]
    ∧ generate_header_file_content kC3 [symC6a] infoBoard "board_config"
      = generate_header_file_content kC3 [symC6b] infoBoard "board_config" :=
  header_determinism "" "CONFIG_" kC3 infoBoard "board_config"
    [symC6a] [symC6b] [symC6a] [symC6b] (by decide) (by decide)

/-- C7 (amended): the check-symbols listing contains name=value exactly for
the symbols of the file-to-symbols map whose resolved value string is y or m,
regardless of their type, in file-bucket order. -/
theorem enabled_listing (k : Kconf) (x : String) :
    x ∈ collect_enabled k ↔
      ∃ g, g ∈ build_file_to_symbols_map k
        ∧ ∃ s, s ∈ g.2 ∧ (s.str_value = "y" ∨ s.str_value = "m")
          ∧ x = s.name ++ "=" ++ s.str_value := by
  unfold collect_enabled
  constructor
  · intro hx
    rw [List.mem_flatten] at hx
    obtain ⟨l, hl, hxl⟩ := hx
    rw [List.mem_map] at hl
    obtain ⟨g, hg, rfl⟩ := hl
    rw [List.mem_filter] at hg
    rw [List.mem_map] at hxl
    obtain ⟨s, hs, rfl⟩ := hxl
    rw [List.mem_filter] at hs
    refine ⟨g, hg.1, s, hs.1, ?_, rfl⟩
    simpa using hs.2
  · rintro ⟨g, hg, s, hs, hval, rfl⟩
    rw [List.mem_flatten]
    refine ⟨(g.2.filter (fun s' => s'.str_value = "y" ∨ s'.str_value = "m")).map
      (fun s' => s'.name ++ "=" ++ s'.str_value), ?_, ?_⟩
    · rw [List.mem_map]
      refine ⟨g, ?_, rfl⟩
      rw [List.mem_filter]
      exact ⟨hg, by simpa using List.ne_nil_of_mem hs⟩
    · rw [List.mem_map]
      refine ⟨s, ?_, rfl⟩
      rw [List.mem_filter]
      exact ⟨hs, by simpa using hval⟩

/-- C7 counterexample: in kC7 the STRING symbol S with resolved value y is
listed, and the listing order groups by file (A then B from the root file,
then S) rather than following declaration order (A, S, B) — refuting that
only bool/tristate symbols are listed in declaration order. -/
theorem enabled_listing_cex :
    collect_enabled kC7 = ["A=y", "B=y", "S=y"]
    ∧ symC7s.orig_type = SymType.sstring ∧ symC7s.type = SymType.sstring := by
  exact ⟨by decide, rfl, rfl⟩

/-- C8: querying a name that is absent from the symbol table makes the run
fail with the symbol-not-found error while the filesystem is returned
untouched, and querying a present name returns the symbol's resolved
str_value (the query branch returns before any header generation). -/
theorem query_contract (env out : String) (st : FsState) (k : Kconf) (name : String)
    (h : name ≠ "") :
    (syms_get k name = none →
      main_run env st k (some name) out
        = (st, Except.error ("Symbol " ++ name ++ " not found")))
    ∧ ∀ sym, syms_get k name = some sym →
        main_run env st k (some name) out = (st, Except.ok [sym.str_value]) := by
  constructor
  · intro hn
    simp [main_run, h, query_symbol, hn]
  · intro sym hn
    simp [main_run, h, query_symbol, hn]

/-- Witness for C8: querying the absent name MISSING in the one-symbol
session kC8 fails with the not-found error and leaves the filesystem as it
was. -/
theorem query_contract_witness :
    main_run "" stEmpty kC8 (some "MISSING") "out"
      = (stEmpty, Except.error ("Symbol " ++ "MISSING" ++ " not found")) :=
  (query_contract "" "out" stEmpty kC8 "MISSING" (by decide)).1 (by decide)

set_option maxRecDepth 10000

/-- C9: with BOARD_HAS_LED1 and BOARD_HAS_LED2 resolved on and
BOARD_HAS_LED3 resolved off, the LED count computed from the resolved
tri_values is 2, the board post-pass appends exactly the
BOARD_LED_COUNT 2 define, and the full rendered board artifact carries it. -/
theorem led_count_board :
    led_count kC9 = 2
    ∧ led_appendix "board_config" kC9 = "\n#define BOARD_LED_COUNT 2\n"
    ∧ generate_header_file_content kC9 [led1, led2, led3] infoBoard "board_config"
      = "/* Auto-generated by gen_config.py for Board Configuration - DO NOT EDIT */\n\n#ifndef BOARD_CONFIG_H\n#define BOARD_CONFIG_H\n\n/* Board Configuration */\n\n#define BOARD_HAS_LED1  1\n\n#define BOARD_HAS_LED2  1\n\n#define BOARD_HAS_LED3  0\n\n\n\n#define BOARD_LED_COUNT 2\n#endif /* BOARD_CONFIG_H */\n" := by
  refine ⟨rfl, rfl, by decide⟩

/-- C10: two fragment paths with equal directory components map to the same
header path, and generating headers for two such fragments in sequence leaves
the later fragment's rendered content at that shared path — the later header
replaces the earlier one. -/
theorem header_path_collision (p1 p2 out env pref : String) (st : FsState)
    (s1 s2 : List Symbol)
    (h : dirname p1 = dirname p2) (h1 : s1 ≠ []) (h2 : s2 ≠ []) :
    get_header_path p1 out = get_header_path p2 out
    ∧ (header_fold env pref out [(p1, s1), (p2, s2)] st).1.files (get_header_path p1 out)
      = some (generate_header_content env pref s2) := by
  have hpath : get_header_path p1 out = get_header_path p2 out := by
    unfold get_header_path
    rw [h]
  refine ⟨hpath, ?_⟩
  rw [hpath]
  unfold header_fold
  simp only [List.foldl_cons, List.foldl_nil, h1, h2, if_neg]
  exact write_header_file_files_self _ _ _

/-- Witness for C10: the fragments sub/Kconfig and sub/Kconfig.board share
the directory sub, map to the same header path, and after processing both
the shared path holds the content of the later fragment. -/
theorem header_path_collision_witness :
    get_header_path "sub/Kconfig" "include/generated"
      = get_header_path "sub/Kconfig.board" "include/generated"
    ∧ (header_fold "" "CONFIG_" "include/generated"
        [("sub/Kconfig", [symC7a]), ("sub/Kconfig.board", [symC7b])] stEmpty).1.files
        (get_header_path "sub/Kconfig" "include/generated")
      = some (generate_header_content "" "CONFIG_" [symC7b]) :=
  header_path_collision "sub/Kconfig" "sub/Kconfig.board" "include/generated"
    "" "CONFIG_" stEmpty [symC7a] [symC7b] (by decide) (by decide) (by decide)

end CubeMot
